import Mathlib

/-!
Shallow embedding of the OnboardingPortal load-testing scripts
(`scripts/advanced_load_tester.py`, `scripts/comprehensive_load_test.py`,
`scripts/quick_load_test.py`) and proofs about their weighted endpoint
selection and statistical reduction.

Durations and drawn random values are modelled as rationals (the scripts use
Python floats; all constants involved, `0.95` and `0.99`, behave identically
under the exact rational model for the properties proved here).  HTTP status
codes are naturals, with `0` marking a transport failure as in the scripts.
Python truthiness of the `error` field (`None` and `""` are falsy) is modelled
by `errTruthy`.
-/

namespace LoadTest

/-- Python truthiness of an optional error string: `None` and `""` are falsy,
any other string is truthy.  Mirrors `if r.error` in the scripts. -/
def errTruthy : Option String → Bool
  | none => false
  | some s => !(s == "")

/-- Python `min(l)` on a non-empty list (0 on `[]`, where the scripts never
call it). -/
def pyMin : List ℚ → ℚ
  | [] => 0
  | x :: xs => xs.foldl min x

/-- Python `max(l)` on a non-empty list (0 on `[]`, where the scripts never
call it). -/
def pyMax : List ℚ → ℚ
  | [] => 0
  | x :: xs => xs.foldl max x

/-- Python `sorted(l)` for ascending numeric sort. -/
def pySorted (l : List ℚ) : List ℚ :=
  List.insertionSort (· ≤ ·) l

/-- The percentile index `int(len(times) * p)` of the scripts, for `p` equal
to `0.95` or `0.99` (Python `int` truncates toward zero, which is `⌊⌋` on the
non-negative products it is applied to). -/
def percentileIndex (n : ℕ) (p : ℚ) : ℕ :=
  (⌊(n : ℚ) * p⌋).toNat

/-- Python `statistics.mean(l)` = `sum(l) / len(l)` (0 on `[]`, where the
scripts never call it). -/
def pyMean (l : List ℚ) : ℚ :=
  l.sum / (l.length : ℚ)

/-- Python `statistics.median(l)`: middle element of the sorted list for odd
length, average of the two middle elements for even length. -/
def pyMedian (l : List ℚ) : ℚ :=
  let s := pySorted l
  let n := l.length
  if n % 2 = 1 then s.getD (n / 2) 0
  else (s.getD (n / 2 - 1) 0 + s.getD (n / 2) 0) / 2

/-- One weighted endpoint definition (name, path, method, integer weight).
Headers and request bodies are configuration data not used by any analysed
code path and are omitted. -/
structure EndpointSpec where
  name : String
  path : String
  method : String
  weight : ℕ
deriving DecidableEq

/-- `sum(ep['weight'] for ep in endpoints)`. -/
def totalWeight (eps : List EndpointSpec) : ℕ :=
  (eps.map (·.weight)).sum

/-- Cumulative weight of the first `i+1` endpoints, as a rational (the running
`current_weight` after processing endpoint `i`). -/
def cumWeight (eps : List EndpointSpec) (i : ℕ) : ℚ :=
  (((eps.take (i + 1)).map (·.weight)).sum : ℕ)

/-- The accumulation loop of `select_endpoint`: walk the list keeping the
running sum `current`, returning the first endpoint with `r <= current +
weight`; `none` when the loop falls through. -/
def selectLoop (r : ℚ) : ℚ → List EndpointSpec → Option EndpointSpec
  | _, [] => none
  | current, ep :: rest =>
      if r ≤ current + (ep.weight : ℚ) then some ep
      else selectLoop r (current + (ep.weight : ℚ)) rest

/-- `select_endpoint` of `advanced_load_tester.py` (lines 135-148) and
`comprehensive_load_test.py` (lines 145-158), with the drawn value `r`
made an explicit argument: the weighted walk, falling back to the first
endpoint of the list when the loop completes without returning. -/
def select_endpoint (eps : List EndpointSpec) (r : ℚ) : Option EndpointSpec :=
  match selectLoop r 0 eps with
  | some ep => some ep
  | none => eps.head?

/-- Spec-side definition (spec 4.1), for refinement comparison: return the
first endpoint in list order whose cumulative weight sum is `>= r`; if `r`
exceeds the final cumulative sum, fall back to the first endpoint of the
list. -/
def specWeightedSelect (eps : List EndpointSpec) (r : ℚ) : Option EndpointSpec :=
  match (List.range eps.length).find? (fun i => decide (r ≤ cumWeight eps i)) with
  | some i => eps.get? i
  | none => eps.head?

/-- Result of the wire exchange underlying one request attempt: either a
completed response (status and body byte length) or a raised exception
carrying its `str(e)` message. -/
inductive ExchangeResult where
  | success (status : ℕ) (bodyBytes : ℕ)
  | failure (msg : String)
deriving DecidableEq

/-- Latency statistics record (`response_times` dict of the analyzers). -/
structure ResponseTimeStats where
  min : ℚ
  max : ℚ
  mean : ℚ
  median : ℚ
  p95 : ℚ
  p99 : ℚ
deriving DecidableEq

/-- The `response_times` computation of `advanced_load_tester.analyze_results`
(lines 215-221): min/max/mean/median over the sample list, p95/p99 indexed
into the sorted list at `int(len * p)` when more than one sample exists,
and the first element of the (unsorted) sample list otherwise. -/
def responseStatsAdv (times : List ℚ) : ResponseTimeStats :=
  { min := pyMin times
    max := pyMax times
    mean := pyMean times
    median := pyMedian times
    p95 := if 1 < times.length then
        (pySorted times).getD (percentileIndex times.length (19/20)) 0
      else times.getD 0 0
    p99 := if 1 < times.length then
        (pySorted times).getD (percentileIndex times.length (99/100)) 0
      else times.getD 0 0 }

/-- The `response_times` computation of
`comprehensive_load_test.analyze_results_by_level` (lines 225-232): identical
to the advanced variant except that the degenerate single-sample case reads
`sorted_times[0]` instead of the unsorted `response_times[0]`. -/
def responseStatsComp (times : List ℚ) : ResponseTimeStats :=
  { min := pyMin times
    max := pyMax times
    mean := pyMean times
    median := pyMedian times
    p95 := if 1 < times.length then
        (pySorted times).getD (percentileIndex times.length (19/20)) 0
      else (pySorted times).getD 0 0
    p99 := if 1 < times.length then
        (pySorted times).getD (percentileIndex times.length (99/100)) 0
      else (pySorted times).getD 0 0 }

namespace advanced

/-- `TestResult` dataclass of `advanced_load_tester.py` (lines 21-29). -/
structure TestResult where
  endpoint : String
  method : String
  status_code : ℕ
  response_time : ℚ
  timestamp : ℚ
  response_size : ℕ
  error : Option String := none
deriving DecidableEq

/-- `make_request` (lines 97-133) with the wire exchange and the measured
elapsed time made explicit inputs: a completed exchange is recorded with its
status, body size and no error; a raised exception is recorded with status 0,
size 0 and `error = str(e)`.  The function is total: no exchange outcome
escapes as an exception. -/
def make_request (endpoint method : String) (start elapsed : ℚ)
    (ex : ExchangeResult) : TestResult :=
  match ex with
  | .success status bodyBytes =>
      { endpoint := endpoint, method := method, status_code := status
        response_time := elapsed, timestamp := start
        response_size := bodyBytes, error := none }
  | .failure msg =>
      { endpoint := endpoint, method := method, status_code := 0
        response_time := elapsed, timestamp := start
        response_size := 0, error := some msg }

/-- Default endpoint list substituted by `AdvancedLoadTester.__init__`
(lines 46-95) when `config.endpoints` is falsy. -/
def defaultEndpoints : List EndpointSpec :=
  [ { name := "health_check", path := "/api/health", method := "GET", weight := 30 }
  , { name := "auth_login", path := "/api/auth/login", method := "POST", weight := 20 }
  , { name := "questionnaire_templates", path := "/api/health-questionnaires/templates", method := "GET", weight := 25 }
  , { name := "gamification_progress", path := "/api/gamification/progress", method := "GET", weight := 15 }
  , { name := "user_info", path := "/api/auth/user", method := "GET", weight := 10 } ]

/-- The endpoint handling of `AdvancedLoadTester.__init__` (lines 40-48):
`if not config.endpoints:` replaces a `None` or empty endpoint list by
`defaultEndpoints`; any non-empty list is kept.  No validation is performed
and no error is ever raised. -/
def initEndpoints (cfgEndpoints : Option (List EndpointSpec)) : List EndpointSpec :=
  match cfgEndpoints with
  | none => defaultEndpoints
  | some eps => if eps.isEmpty then defaultEndpoints else eps

/-- The latency-sample filter of `analyze_results` (line 205):
`[r.response_time for r in results if r.status_code > 0]`. -/
def completedTimes (results : List TestResult) : List ℚ :=
  (results.filter fun r => 0 < r.status_code).map (·.response_time)

/-- `200 <= r.status_code < 400` (line 212). -/
def isSuccessB (r : TestResult) : Bool :=
  decide (200 ≤ r.status_code ∧ r.status_code < 400)

/-- `r.error or r.status_code >= 400` (line 207), with Python truthiness of
the error string. -/
def isErrorB (r : TestResult) : Bool :=
  errTruthy r.error || decide (400 ≤ r.status_code)

/-- Per-endpoint analysis record built by `analyze_results` (lines 210-225).
The `status_code_distribution` dict is report formatting and is omitted. -/
structure EndpointAnalysis where
  total_requests : ℕ
  successful_requests : ℕ
  error_rate : ℚ
  response_times : ResponseTimeStats
  throughput : ℚ
  errors : ℕ
deriving DecidableEq

/-- The per-endpoint body of `analyze_results` (lines 204-225): skipped
(absent from the output) when no outcome has a positive status code,
otherwise counts, error rate (as a percentage) and latency statistics. -/
def analyze_endpoint (results : List TestResult) (test_duration : ℚ) :
    Option EndpointAnalysis :=
  let response_times := completedTimes results
  let errors := results.filter isErrorB
  if response_times.isEmpty then none
  else some
    { total_requests := results.length
      successful_requests := (results.filter isSuccessB).length
      error_rate := (errors.length : ℚ) / (results.length : ℚ) * 100
      response_times := responseStatsAdv response_times
      throughput := (results.length : ℚ) / test_duration
      errors := errors.length }

/-- First-seen order of endpoint names, as produced by the grouping dict of
`analyze_results` (lines 187-191). -/
def endpointNames (results : List TestResult) : List String :=
  results.foldl (fun acc r => if r.endpoint ∈ acc then acc else acc ++ [r.endpoint]) []

/-- The group of results recorded for one endpoint name. -/
def groupFor (results : List TestResult) (name : String) : List TestResult :=
  results.filter fun r => r.endpoint == name

/-- Top-level record of `analyze_results`. -/
structure Analysis where
  total_requests : ℕ
  average_rps : ℚ
  endpoints : List (String × EndpointAnalysis)
deriving DecidableEq

/-- `analyze_results` (lines 181-227): an explicit error record on an empty
result collection, otherwise the summary plus the per-endpoint analyses
(endpoints whose completed-sample list is empty are absent). -/
def analyze_results (results : List TestResult) (test_duration : ℚ) :
    Except String Analysis :=
  if results.isEmpty then .error "No results to analyze"
  else .ok
    { total_requests := results.length
      average_rps := (results.length : ℚ) / test_duration
      endpoints := (endpointNames results).filterMap fun n =>
        (analyze_endpoint (groupFor results n) test_duration).map fun a => (n, a) }

end advanced

namespace comprehensive

/-- `TestResult` dataclass of `comprehensive_load_test.py` (lines 26-35),
which additionally records the concurrency level active when the request was
issued. -/
structure TestResult where
  endpoint : String
  method : String
  status_code : ℕ
  response_time : ℚ
  timestamp : ℚ
  response_size : ℕ
  concurrent_users : ℕ
  error : Option String := none
deriving DecidableEq

/-- `make_request` (lines 104-143) with exchange and elapsed time explicit;
same failure handling as the advanced variant, plus concurrency
attribution.  Total: every exchange outcome is returned as data. -/
def make_request (endpoint method : String) (start elapsed : ℚ)
    (concurrent_users : ℕ) (ex : ExchangeResult) : TestResult :=
  match ex with
  | .success status bodyBytes =>
      { endpoint := endpoint, method := method, status_code := status
        response_time := elapsed, timestamp := start
        response_size := bodyBytes, concurrent_users := concurrent_users
        error := none }
  | .failure msg =>
      { endpoint := endpoint, method := method, status_code := 0
        response_time := elapsed, timestamp := start
        response_size := 0, concurrent_users := concurrent_users
        error := some msg }

/-- The latency-sample filter of `analyze_results_by_level` (line 212):
`[r.response_time for r in results if r.status_code > 0]`. -/
def completedTimes (results : List TestResult) : List ℚ :=
  (results.filter fun r => 0 < r.status_code).map (·.response_time)

/-- `200 <= r.status_code < 400` (line 214). -/
def isSuccessB (r : TestResult) : Bool :=
  decide (200 ≤ r.status_code ∧ r.status_code < 400)

/-- `r.error or r.status_code >= 400` (line 215), with Python truthiness of
the error string. -/
def isErrorB (r : TestResult) : Bool :=
  errTruthy r.error || decide (400 ≤ r.status_code)

/-- Per-endpoint analysis record of `analyze_results_by_level`
(lines 219-236).  The `status_codes` dict and sampled `errors` list are
report formatting and are omitted. -/
structure CEndpointAnalysis where
  total_requests : ℕ
  successful_requests : ℕ
  failed_requests : ℕ
  success_rate : ℚ
  error_rate : ℚ
  response_times : ResponseTimeStats
deriving DecidableEq

/-- The per-endpoint body of `analyze_results_by_level` (lines 211-236):
skipped (absent) when no outcome has a positive status code, otherwise
counts, rates (percentages) and latency statistics over the completed
samples. -/
def analyze_level_endpoint (results : List TestResult) : Option CEndpointAnalysis :=
  let response_times := completedTimes results
  let successful := results.filter isSuccessB
  let errors := results.filter isErrorB
  if response_times.isEmpty then none
  else some
    { total_requests := results.length
      successful_requests := successful.length
      failed_requests := errors.length
      success_rate := (successful.length : ℚ) / (results.length : ℚ) * 100
      error_rate := (errors.length : ℚ) / (results.length : ℚ) * 100
      response_times := responseStatsComp response_times }

/-- First-seen order of endpoint names (grouping dict, lines 197-201). -/
def endpointNames (results : List TestResult) : List String :=
  results.foldl (fun acc r => if r.endpoint ∈ acc then acc else acc ++ [r.endpoint]) []

/-- The group of results recorded for one endpoint name. -/
def groupFor (results : List TestResult) (name : String) : List TestResult :=
  results.filter fun r => r.endpoint == name

/-- Top-level record of `analyze_results_by_level` (lines 203-208). -/
structure LevelAnalysis where
  concurrent_users : ℕ
  total_requests : ℕ
  duration : ℚ
  endpoints : List (String × CEndpointAnalysis)
deriving DecidableEq

/-- `analyze_results_by_level` (lines 189-238): restrict the shared result
collection to one concurrency level, return an explicit error record when
that restriction is empty, otherwise the level summary plus per-endpoint
analyses. -/
def analyze_results_by_level (allResults : List TestResult)
    (concurrent_users : ℕ) : Except String LevelAnalysis :=
  let level_results := allResults.filter fun r => r.concurrent_users == concurrent_users
  if level_results.isEmpty then
    .error ("No results found for " ++ toString concurrent_users ++ " concurrent users")
  else .ok
    { concurrent_users := concurrent_users
      total_requests := level_results.length
      duration := pyMax (level_results.map (·.timestamp))
        - pyMin (level_results.map (·.timestamp))
      endpoints := (endpointNames level_results).filterMap fun n =>
        (analyze_level_endpoint (groupFor level_results n)).map fun a => (n, a) }

end comprehensive

namespace quick

/-- The result dict built by `quick_load_test.test_endpoint` (lines 12-39):
the success path records the status, elapsed time, content length and the
`success` flag `200 <= status < 400`; the failure path records status 0,
length 0, `success = False` and the exception's message. -/
structure Result where
  endpoint : String
  method : String
  status : ℕ
  response_time : ℚ
  content_length : ℕ
  success : Bool
  error : Option String := none
deriving DecidableEq

/-- `test_endpoint` (lines 12-39) with exchange and elapsed time explicit.
Total: every exchange outcome, including a raised exception, is returned as
a result dict. -/
def test_endpoint (endpoint method : String) (elapsed : ℚ)
    (ex : ExchangeResult) : Result :=
  match ex with
  | .success status contentLen =>
      { endpoint := endpoint, method := method, status := status
        response_time := elapsed, content_length := contentLen
        success := decide (200 ≤ status ∧ status < 400), error := none }
  | .failure msg =>
      { endpoint := endpoint, method := method, status := 0
        response_time := elapsed, content_length := 0
        success := false, error := some msg }

/-- The aggregate `response_time_stats` dict of `analyze_results`
(lines 105-115 and 143-149). -/
structure QuickRTStats where
  average : ℚ
  minimum : ℚ
  maximum : ℚ
  p95 : ℚ
  p99 : ℚ
deriving DecidableEq

/-- Lines 107-115 of `quick_load_test.py`: statistics over the
success-filtered sample list; when that list is empty every field is set to
the number 0 (`avg = min = max = p95 = p99 = 0`). -/
def quickStats (response_times : List ℚ) : QuickRTStats :=
  if response_times.isEmpty then
    { average := 0, minimum := 0, maximum := 0, p95 := 0, p99 := 0 }
  else
    let sorted_times := pySorted response_times
    { average := response_times.sum / (response_times.length : ℚ)
      minimum := pyMin response_times
      maximum := pyMax response_times
      p95 := if 1 < sorted_times.length then
          sorted_times.getD (percentileIndex sorted_times.length (19/20)) 0
        else sorted_times.getD 0 0
      p99 := if 1 < sorted_times.length then
          sorted_times.getD (percentileIndex sorted_times.length (99/100)) 0
        else sorted_times.getD 0 0 }

/-- The latency-sample filter of `analyze_results` (line 105):
`[r['response_time'] for r in results if r['success']]` — note it keeps only
successful (2xx-3xx) outcomes, not all completed exchanges. -/
def successTimes (results : List Result) : List ℚ :=
  (results.filter (·.success)).map (·.response_time)

/-- Top-level record of `analyze_results` (lines 138-151).  The per-endpoint
`endpoint_breakdown` dict is omitted (its latency handling repeats the
aggregate computation). -/
structure QuickAnalysis where
  total_requests : ℕ
  successful_requests : ℕ
  failed_requests : ℕ
  success_rate : ℚ
  response_time_stats : QuickRTStats
deriving DecidableEq

/-- `analyze_results` (lines 96-153): an explicit error record on an empty
result collection, otherwise counts, the success rate and the aggregate
latency statistics over the success-filtered samples. -/
def analyze_results (results : List Result) : Except String QuickAnalysis :=
  if results.isEmpty then .error "No results to analyze"
  else
    let total_requests := results.length
    let successful_requests := (results.filter (·.success)).length
    .ok
      { total_requests := total_requests
        successful_requests := successful_requests
        failed_requests := total_requests - successful_requests
        success_rate := if 0 < total_requests then
            (successful_requests : ℚ) / (total_requests : ℚ) * 100
          else 0
        response_time_stats := quickStats (successTimes results) }

end quick

/-! Concrete data used by witnesses and counterexamples. -/

/-- The elapsed times of the fixed ten-outcome scenario of the spec
(section 8), as exact rationals. -/
def scenarioTimes : List ℚ :=
  [1/10, 1/10, 1/5, 1/5, 1/5, 3/10, 3/10, 2/5, 1/2, 1]

/-- Ten outcomes for one endpoint, all with status 200, carrying the
scenario's elapsed times. -/
def scenarioResults : List advanced.TestResult :=
  scenarioTimes.map fun t =>
    { endpoint := "health_check", method := "GET", status_code := 200
      response_time := t, timestamp := 0, response_size := 10, error := none }

/-- A completed exchange with an application error status (HTTP 500), as
recorded by `quick.test_endpoint`.  Its status code is nonzero, yet
`quick.analyze_results` excludes it from the latency samples. -/
def quickServerError : quick.Result :=
  quick.test_endpoint "http://127.0.0.1:8002/api/health" "GET" (3/10)
    (.success 500 21)

/-- A transport failure, as recorded by `quick.test_endpoint`. -/
def quickFailure : quick.Result :=
  quick.test_endpoint "http://127.0.0.1:8002/api/health" "GET" (1/5)
    (.failure "Cannot connect to host 127.0.0.1:8002")

/-- A transport failure whose exception renders to the empty string
(for example `asyncio.TimeoutError`), recorded at concurrency level 1. -/
def compEmptyMsgFailure : comprehensive.TestResult :=
  comprehensive.make_request "health_check" "GET" 0 30 1 (.failure "")

/-- A successful exchange at concurrency level 1. -/
def compSuccess : comprehensive.TestResult :=
  comprehensive.make_request "health_check" "GET" 0 (1/10) 1 (.success 200 17)

/-- A completed exchange with an HTTP 503 status at concurrency level 1. -/
def compServerError : comprehensive.TestResult :=
  comprehensive.make_request "health_check" "GET" 0 (2/5) 1 (.success 503 21)

/-- A successful exchange recorded by the advanced script. -/
def advSuccess : advanced.TestResult :=
  advanced.make_request "health_check" "GET" 0 (1/10) (.success 200 17)

/-- A transport failure recorded by the advanced script. -/
def advFailure : advanced.TestResult :=
  advanced.make_request "health_check" "GET" 0 30 (.failure "Connection refused")

/-- A successful exchange recorded by the quick script. -/
def quickSuccess : quick.Result :=
  quick.test_endpoint "http://127.0.0.1:8002/api/health" "GET" (1/10)
    (.success 200 17)

/-- The analysis the advanced script produces for the single outcome
`advSuccess` with a 30 second test duration. -/
def advSingleAnalysis : advanced.EndpointAnalysis :=
  { total_requests := 1, successful_requests := 1, error_rate := 0
    response_times :=
      { min := 1/10, max := 1/10, mean := 1/10, median := 1/10
        p95 := 1/10, p99 := 1/10 }
    throughput := 1/30, errors := 0 }

/-- The analysis the comprehensive script produces for the single outcome
`compSuccess`. -/
def compSingleAnalysis : comprehensive.CEndpointAnalysis :=
  { total_requests := 1, successful_requests := 1, failed_requests := 0
    success_rate := 100, error_rate := 0
    response_times :=
      { min := 1/10, max := 1/10, mean := 1/10, median := 1/10
        p95 := 1/10, p99 := 1/10 } }

/-- The analysis the quick script produces for the single outcome
`quickSuccess`. -/
def quickSingleAnalysis : quick.QuickAnalysis :=
  { total_requests := 1, successful_requests := 1, failed_requests := 0
    success_rate := 100
    response_time_stats :=
      { average := 1/10, minimum := 1/10, maximum := 1/10
        p95 := 1/10, p99 := 1/10 } }

/-- The analysis the quick script produces for the single failed outcome
`quickFailure`: every latency field is the number 0. -/
def quickFailedAnalysis : quick.QuickAnalysis :=
  { total_requests := 1, successful_requests := 0, failed_requests := 1
    success_rate := 0
    response_time_stats :=
      { average := 0, minimum := 0, maximum := 0, p95 := 0, p99 := 0 } }

/-- The analysis the comprehensive script produces for the two outcomes
`compSuccess` and `compServerError`. -/
def compPairAnalysis : comprehensive.CEndpointAnalysis :=
  { total_requests := 2, successful_requests := 1, failed_requests := 1
    success_rate := 50, error_rate := 50
    response_times :=
      { min := 1/10, max := 2/5, mean := 1/4, median := 1/4
        p95 := 2/5, p99 := 2/5 } }

/-! Well-formedness of recorded outcomes: the shapes `make_request` produces
when the underlying exception message is non-empty (transport failures carry
a truthy error description, completed exchanges carry none). -/

/-- A comprehensive-script outcome as produced by `make_request` with a
non-empty exception message, restricted to the status ranges the claim
classifies: transport failure (status 0, truthy error), success (2xx-3xx,
no error), or application error (status at least 400). -/
def OutcomeWF (r : comprehensive.TestResult) : Prop :=
  (r.status_code = 0 ∧ errTruthy r.error = true)
  ∨ (200 ≤ r.status_code ∧ r.status_code < 400 ∧ r.error = none)
  ∨ 400 ≤ r.status_code

/-- The same shape condition for the advanced-script outcomes. -/
def OutcomeWFAdv (r : advanced.TestResult) : Prop :=
  (r.status_code = 0 ∧ errTruthy r.error = true)
  ∨ (200 ≤ r.status_code ∧ r.status_code < 400 ∧ r.error = none)
  ∨ 400 ≤ r.status_code

/-! Helper lemmas. -/

theorem pySorted_perm (l : List ℚ) : (pySorted l).Perm l :=
  List.perm_insertionSort _ l

theorem pySorted_length (l : List ℚ) : (pySorted l).length = l.length :=
  List.length_insertionSort _ l

theorem pySorted_eq_of_perm {l₁ l₂ : List ℚ} (h : l₁.Perm l₂) :
    pySorted l₁ = pySorted l₂ :=
  List.eq_of_perm_of_sorted ((pySorted_perm l₁).trans (h.trans (pySorted_perm l₂).symm))
    (List.sorted_insertionSort _ l₁) (List.sorted_insertionSort _ l₂)

theorem perm_eq_of_length_le_one {l₁ l₂ : List ℚ} (h : l₁.Perm l₂)
    (hl : l₂.length ≤ 1) : l₁ = l₂ := by
  match l₂, hl with
  | [], _ => exact h.eq_nil
  | [a], _ => exact List.perm_singleton.mp h

theorem percentileIndex_lt {n : ℕ} (hn : 1 ≤ n) {p : ℚ} (hp0 : 0 ≤ p)
    (hp1 : p < 1) : percentileIndex n p < n := by
  have hn' : (0 : ℚ) < n := by exact_mod_cast hn
  have h1 : (n : ℚ) * p < n := by nlinarith
  have h2 : ⌊(n : ℚ) * p⌋ < (n : ℤ) := by
    rw [Int.floor_lt]
    exact_mod_cast h1
  have h0 : (0 : ℤ) ≤ ⌊(n : ℚ) * p⌋ := Int.floor_nonneg.mpr (by positivity)
  simp only [percentileIndex]
  omega

theorem advanced_analyze_endpoint_eq_some {rs : List advanced.TestResult} {d : ℚ}
    {a : advanced.EndpointAnalysis} (h : advanced.analyze_endpoint rs d = some a) :
    a = { total_requests := rs.length
          successful_requests := (rs.filter advanced.isSuccessB).length
          error_rate := ((rs.filter advanced.isErrorB).length : ℚ) / (rs.length : ℚ) * 100
          response_times := responseStatsAdv (advanced.completedTimes rs)
          throughput := (rs.length : ℚ) / d
          errors := (rs.filter advanced.isErrorB).length } := by
  simp only [advanced.analyze_endpoint] at h
  split at h
  · exact Option.noConfusion h
  · cases h
    rfl

theorem comprehensive_analyze_level_eq_some {rs : List comprehensive.TestResult}
    {a : comprehensive.CEndpointAnalysis}
    (h : comprehensive.analyze_level_endpoint rs = some a) :
    a = { total_requests := rs.length
          successful_requests := (rs.filter comprehensive.isSuccessB).length
          failed_requests := (rs.filter comprehensive.isErrorB).length
          success_rate := ((rs.filter comprehensive.isSuccessB).length : ℚ)
            / (rs.length : ℚ) * 100
          error_rate := ((rs.filter comprehensive.isErrorB).length : ℚ)
            / (rs.length : ℚ) * 100
          response_times := responseStatsComp (comprehensive.completedTimes rs) } := by
  simp only [comprehensive.analyze_level_endpoint] at h
  split at h
  · exact Option.noConfusion h
  · cases h
    rfl

theorem quick_analyze_eq_ok {rs : List quick.Result} {a : quick.QuickAnalysis}
    (h : quick.analyze_results rs = .ok a) :
    a = { total_requests := rs.length
          successful_requests := (rs.filter (·.success)).length
          failed_requests := rs.length - (rs.filter (·.success)).length
          success_rate := if 0 < rs.length then
              ((rs.filter (·.success)).length : ℚ) / (rs.length : ℚ) * 100
            else 0
          response_time_stats := quick.quickStats (quick.successTimes rs) } := by
  simp only [quick.analyze_results] at h
  split at h
  · exact Except.noConfusion h
  · cases h
    rfl

theorem cumWeight_zero (ep : EndpointSpec) (rest : List EndpointSpec) :
    cumWeight (ep :: rest) 0 = (ep.weight : ℚ) := by
  simp [cumWeight]

theorem cumWeight_succ (ep : EndpointSpec) (rest : List EndpointSpec) (i : ℕ) :
    cumWeight (ep :: rest) (i + 1) = (ep.weight : ℚ) + cumWeight rest i := by
  simp only [cumWeight, List.take_succ_cons, List.map_cons, List.sum_cons]
  push_cast
  ring

theorem cumWeight_le_total (eps : List EndpointSpec) (i : ℕ) :
    cumWeight eps i ≤ (totalWeight eps : ℚ) := by
  have h : ((eps.take (i + 1)).map (·.weight)).sum ≤ (eps.map (·.weight)).sum :=
    List.Sublist.sum_le_sum ((List.take_sublist _ _).map _) (fun _ _ => Nat.zero_le _)
  simp only [cumWeight, totalWeight]
  exact_mod_cast h

theorem selectLoop_eq_find (r : ℚ) :
    ∀ (eps : List EndpointSpec) (c : ℚ),
      selectLoop r c eps
        = (match (List.range eps.length).find?
              (fun i => decide (r ≤ c + cumWeight eps i)) with
           | some i => eps.get? i
           | none => none) := by
  intro eps
  induction eps with
  | nil => intro c; simp [selectLoop]
  | cons ep rest ih =>
    intro c
    rw [selectLoop]
    by_cases h : r ≤ c + (ep.weight : ℚ)
    · have h0 : (decide (r ≤ c + cumWeight (ep :: rest) 0)) = true := by
        rw [cumWeight_zero]; exact decide_eq_true h
      simp [List.range_succ_eq_map, List.find?_cons, h0, h]
    · have h0 : (decide (r ≤ c + cumWeight (ep :: rest) 0)) = false := by
        rw [cumWeight_zero]; exact decide_eq_false h
      rw [ih (c + (ep.weight : ℚ))]
      simp only [List.length_cons, List.range_succ_eq_map, List.find?_cons, h0,
        List.find?_map]
      have hp : ((fun i => decide (r ≤ c + cumWeight (ep :: rest) i)) ∘ Nat.succ)
          = fun i => decide (r ≤ c + (ep.weight : ℚ) + cumWeight rest i) := by
        funext i
        simp only [Function.comp_apply, cumWeight_succ]
        rw [add_assoc]
      rw [hp]
      cases hfind : (List.range rest.length).find?
          (fun i => decide (r ≤ c + (ep.weight : ℚ) + cumWeight rest i)) with
      | none => simp [h, not_le.mp h]
      | some i => simp [h]

theorem isEmpty_eq_of_perm {l₁ l₂ : List ℚ} (h : l₁.Perm l₂) :
    l₁.isEmpty = l₂.isEmpty := by
  cases l₁ with
  | nil =>
    have := h.symm.eq_nil
    subst this
    rfl
  | cons a t =>
    cases l₂ with
    | nil => exact absurd h.eq_nil (by simp)
    | cons b s => rfl

theorem responseStatsAdv_p95_p99_perm {l₁ l₂ : List ℚ} (h : l₁.Perm l₂) :
    (responseStatsAdv l₁).p95 = (responseStatsAdv l₂).p95
    ∧ (responseStatsAdv l₁).p99 = (responseStatsAdv l₂).p99 := by
  have hlen := h.length_eq
  by_cases h2 : 1 < l₂.length
  · have hs := pySorted_eq_of_perm h
    constructor <;> simp [responseStatsAdv, hlen, hs, h2]
  · have heq : l₁ = l₂ := perm_eq_of_length_le_one h (by omega)
    rw [heq]
    exact ⟨rfl, rfl⟩

theorem responseStatsComp_p95_p99_perm {l₁ l₂ : List ℚ} (h : l₁.Perm l₂) :
    (responseStatsComp l₁).p95 = (responseStatsComp l₂).p95
    ∧ (responseStatsComp l₁).p99 = (responseStatsComp l₂).p99 := by
  have hlen := h.length_eq
  have hs := pySorted_eq_of_perm h
  constructor <;> simp [responseStatsComp, hlen, hs]

theorem count_partition_comp (rs : List comprehensive.TestResult)
    (h : ∀ r ∈ rs, OutcomeWF r) :
    (rs.filter comprehensive.isSuccessB).length
      + (rs.filter comprehensive.isErrorB).length = rs.length := by
  induction rs with
  | nil => simp
  | cons r rest ih =>
    have hr := h r (List.mem_cons_self r rest)
    have ih' := ih fun x hx => h x (List.mem_cons_of_mem r hx)
    rcases hr with ⟨h0, he⟩ | ⟨h1, h2, h3⟩ | h4
    · have hs : comprehensive.isSuccessB r = false := by
        simp only [comprehensive.isSuccessB, decide_eq_false_iff_not]
        omega
      have herr : comprehensive.isErrorB r = true := by
        simp [comprehensive.isErrorB, he]
      simp [List.filter_cons, hs, herr]
      omega
    · have hs : comprehensive.isSuccessB r = true := by
        simp only [comprehensive.isSuccessB, decide_eq_true_eq]
        omega
      have herr : comprehensive.isErrorB r = false := by
        simp [comprehensive.isErrorB, h3, errTruthy]
        omega
      simp [List.filter_cons, hs, herr]
      omega
    · have hs : comprehensive.isSuccessB r = false := by
        simp only [comprehensive.isSuccessB, decide_eq_false_iff_not]
        omega
      have herr : comprehensive.isErrorB r = true := by
        simp [comprehensive.isErrorB, h4]
      simp [List.filter_cons, hs, herr]
      omega

theorem count_partition_adv (rs : List advanced.TestResult)
    (h : ∀ r ∈ rs, OutcomeWFAdv r) :
    (rs.filter advanced.isSuccessB).length
      + (rs.filter advanced.isErrorB).length = rs.length := by
  induction rs with
  | nil => simp
  | cons r rest ih =>
    have hr := h r (List.mem_cons_self r rest)
    have ih' := ih fun x hx => h x (List.mem_cons_of_mem r hx)
    rcases hr with ⟨h0, he⟩ | ⟨h1, h2, h3⟩ | h4
    · have hs : advanced.isSuccessB r = false := by
        simp only [advanced.isSuccessB, decide_eq_false_iff_not]
        omega
      have herr : advanced.isErrorB r = true := by
        simp [advanced.isErrorB, he]
      simp [List.filter_cons, hs, herr]
      omega
    · have hs : advanced.isSuccessB r = true := by
        simp only [advanced.isSuccessB, decide_eq_true_eq]
        omega
      have herr : advanced.isErrorB r = false := by
        simp [advanced.isErrorB, h3, errTruthy]
        omega
      simp [List.filter_cons, hs, herr]
      omega
    · have hs : advanced.isSuccessB r = false := by
        simp only [advanced.isSuccessB, decide_eq_false_iff_not]
        omega
      have herr : advanced.isErrorB r = true := by
        simp [advanced.isErrorB, h4]
      simp [List.filter_cons, hs, herr]
      omega

/-! Statements and proofs for the claims. -/

/-- Claim C9: for every non-empty latency sample list of length n, the
percentile indices `int(n * 0.95)` and `int(n * 0.99)` are strictly below
the length of the sorted sample list, so the p95/p99 lookups are always in
bounds. -/
theorem C9_percentile_index_in_bounds :
    ∀ l : List ℚ, l ≠ [] →
      percentileIndex l.length (19/20) < (pySorted l).length
      ∧ percentileIndex l.length (99/100) < (pySorted l).length := by
  intro l hl
  have hn : 1 ≤ l.length := List.length_pos.mpr hl
  rw [pySorted_length]
  exact ⟨percentileIndex_lt hn (by norm_num) (by norm_num),
    percentileIndex_lt hn (by norm_num) (by norm_num)⟩

/-- Witness for C9 at the concrete three-sample list. -/
theorem C9_witness :
    ([1/10, 1/5, 3/10] : List ℚ) ≠ []
    ∧ (percentileIndex ([1/10, 1/5, 3/10] : List ℚ).length (19/20)
        < (pySorted [1/10, 1/5, 3/10]).length
      ∧ percentileIndex ([1/10, 1/5, 3/10] : List ℚ).length (99/100)
        < (pySorted [1/10, 1/5, 3/10]).length) :=
  ⟨by simp, C9_percentile_index_in_bounds [1/10, 1/5, 3/10] (by simp)⟩

/-- Claim C5 (amended): a request attempt whose exchange raises an exception
is always recorded — in all three scripts — as an outcome with status code
0, byte length 0, and `error` set to the exception's string form; the
exception never escapes (the recording functions are total).  The recorded
description, however, is whatever `str(e)` yields and may be the empty
string (for example for `asyncio.TimeoutError`), so it is not always
non-empty. -/
theorem C5_failure_outcome_recorded :
    ∀ (ep meth : String) (start elapsed : ℚ) (cu : ℕ) (msg : String),
      advanced.make_request ep meth start elapsed (.failure msg)
        = { endpoint := ep, method := meth, status_code := 0
            response_time := elapsed, timestamp := start
            response_size := 0, error := some msg }
      ∧ comprehensive.make_request ep meth start elapsed cu (.failure msg)
        = { endpoint := ep, method := meth, status_code := 0
            response_time := elapsed, timestamp := start
            response_size := 0, concurrent_users := cu, error := some msg }
      ∧ quick.test_endpoint ep meth elapsed (.failure msg)
        = { endpoint := ep, method := meth, status := 0
            response_time := elapsed, content_length := 0
            success := false, error := some msg } := by
  intro ep meth start elapsed cu msg
  exact ⟨rfl, rfl, rfl⟩

/-- Counterexample to C5 as stated: an exception whose `str(e)` is empty is
recorded with an empty error description, not a non-empty one. -/
theorem C5_counterexample_empty_error :
    (advanced.make_request "health_check" "GET" 0 30 (.failure "")).error
      = some ""
    ∧ ("" : String).length = 0 :=
  ⟨rfl, rfl⟩

/-- Claim C7 (amended): invalid configurations are not rejected: a missing or
empty endpoint list is silently replaced by the built-in five-endpoint
default list (a degenerate configuration never produces an error), and any
non-empty list is accepted unvalidated — non-positive weights, durations and
concurrency are never checked. -/
theorem C7_no_validation_defaults :
    advanced.initEndpoints none = advanced.defaultEndpoints
    ∧ advanced.initEndpoints (some []) = advanced.defaultEndpoints
    ∧ ∀ eps : List EndpointSpec, eps ≠ [] → advanced.initEndpoints (some eps) = eps := by
  refine ⟨rfl, rfl, fun eps h => ?_⟩
  simp [advanced.initEndpoints, h]

/-- Witness for C7 at a concrete one-endpoint configuration (with a
non-positive weight, which is accepted unvalidated). -/
theorem C7_witness :
    ([{ name := "health_check", path := "/api/health", method := "GET", weight := 0 }]
        : List EndpointSpec) ≠ []
    ∧ advanced.initEndpoints
        (some [{ name := "health_check", path := "/api/health", method := "GET", weight := 0 }])
      = [{ name := "health_check", path := "/api/health", method := "GET", weight := 0 }] :=
  ⟨by simp, C7_no_validation_defaults.2.2 _ (by simp)⟩

/-- Counterexample to C7 as stated: the empty endpoint set is not rejected;
`AdvancedLoadTester.__init__` silently substitutes the five default
endpoints and raises no error. -/
theorem C7_counterexample_empty_endpoints_defaulted :
    advanced.initEndpoints (some []) = advanced.defaultEndpoints
    ∧ advanced.defaultEndpoints.length = 5 :=
  ⟨rfl, rfl⟩

/-- Claim C10: each of the three analyzers, given an empty outcome
collection, returns an explicit error record and performs no statistical
computation. -/
theorem C10_empty_results_error :
    ∀ (d : ℚ) (n : ℕ),
      advanced.analyze_results [] d = .error "No results to analyze"
      ∧ quick.analyze_results [] = .error "No results to analyze"
      ∧ comprehensive.analyze_results_by_level [] n
        = .error ("No results found for " ++ toString n ++ " concurrent users") := by
  intro d n
  exact ⟨rfl, rfl, rfl⟩

/-- Claim C1 (amended): the advanced and comprehensive analyzers compute the
latency statistics over exactly the elapsed times of outcomes with a nonzero
status code, while the quick analyzer computes them over the outcomes marked
successful (2xx-3xx only, excluding completed 4xx/5xx exchanges); in all
three, when at least 2 samples exist p95 and p99 are the sorted list's
elements at index `int(len * 0.95)` resp. `int(len * 0.99)`, and with exactly
one sample both percentiles equal that sample. -/
theorem C1_latency_filter_and_percentiles :
    (∀ (rs : List advanced.TestResult) (d : ℚ) (a : advanced.EndpointAnalysis),
        advanced.analyze_endpoint rs d = some a →
        a.response_times = responseStatsAdv (advanced.completedTimes rs))
    ∧ (∀ (rs : List comprehensive.TestResult) (a : comprehensive.CEndpointAnalysis),
        comprehensive.analyze_level_endpoint rs = some a →
        a.response_times = responseStatsComp (comprehensive.completedTimes rs))
    ∧ (∀ (rs : List quick.Result) (a : quick.QuickAnalysis),
        quick.analyze_results rs = .ok a →
        a.response_time_stats = quick.quickStats (quick.successTimes rs))
    ∧ (∀ times : List ℚ, 2 ≤ times.length →
        ((responseStatsAdv times).p95
            = (pySorted times).getD (percentileIndex times.length (19/20)) 0
          ∧ (responseStatsAdv times).p99
            = (pySorted times).getD (percentileIndex times.length (99/100)) 0)
        ∧ responseStatsComp times = responseStatsAdv times
        ∧ ((quick.quickStats times).p95 = (responseStatsAdv times).p95
          ∧ (quick.quickStats times).p99 = (responseStatsAdv times).p99))
    ∧ (∀ t : ℚ,
        ((responseStatsAdv [t]).p95 = t ∧ (responseStatsAdv [t]).p99 = t)
        ∧ ((responseStatsComp [t]).p95 = t ∧ (responseStatsComp [t]).p99 = t)
        ∧ ((quick.quickStats [t]).p95 = t ∧ (quick.quickStats [t]).p99 = t)) := by
  refine ⟨?_, ?_, ?_, ?_, ?_⟩
  · intro rs d a h
    rw [advanced_analyze_endpoint_eq_some h]
  · intro rs a h
    rw [comprehensive_analyze_level_eq_some h]
  · intro rs a h
    rw [quick_analyze_eq_ok h]
  · intro times h2
    have h1 : 1 < times.length := h2
    have hne : times.isEmpty = false := by
      cases times with
      | nil => simp at h1
      | cons a l => rfl
    refine ⟨⟨?_, ?_⟩, ?_, ?_, ?_⟩
    · simp [responseStatsAdv, h1]
    · simp [responseStatsAdv, h1]
    · simp [responseStatsAdv, responseStatsComp, h1]
    · simp [quick.quickStats, responseStatsAdv, hne, pySorted_length, h1]
    · simp [quick.quickStats, responseStatsAdv, hne, pySorted_length, h1]
  · intro t
    refine ⟨⟨?_, ?_⟩, ⟨?_, ?_⟩, ?_, ?_⟩ <;>
      simp [responseStatsAdv, responseStatsComp, quick.quickStats, pySorted,
        List.insertionSort, List.orderedInsert]

/-- Counterexample to C1 as stated: a completed exchange with status 500
(whose status code is different from 0) is excluded from the quick
analyzer's latency samples, so the statistics are not computed over the
status-nonzero outcomes — for this single-outcome run the claim's rule would
give p95 = 3/10, but the code reports 0. -/
theorem C1_counterexample_quick_filter :
    quickServerError.status = 500
    ∧ (quick.analyze_results [quickServerError]).map
        (fun a => a.response_time_stats.p95) = .ok 0
    ∧ (0 : ℚ) ≠ 3/10 := by
  refine ⟨rfl, ?_, by norm_num⟩
  norm_num [quick.analyze_results, quickServerError, quick.test_endpoint,
    quick.quickStats, quick.successTimes, Except.map]

/-- Witness for C1: each conjunct applied at a concrete input. -/
theorem C1_witness :
    (advanced.analyze_endpoint [advSuccess] 30 = some advSingleAnalysis
      ∧ advSingleAnalysis.response_times
        = responseStatsAdv (advanced.completedTimes [advSuccess]))
    ∧ (comprehensive.analyze_level_endpoint [compSuccess] = some compSingleAnalysis
      ∧ compSingleAnalysis.response_times
        = responseStatsComp (comprehensive.completedTimes [compSuccess]))
    ∧ (quick.analyze_results [quickSuccess] = .ok quickSingleAnalysis
      ∧ quickSingleAnalysis.response_time_stats
        = quick.quickStats (quick.successTimes [quickSuccess]))
    ∧ (2 ≤ scenarioTimes.length
      ∧ (((responseStatsAdv scenarioTimes).p95
            = (pySorted scenarioTimes).getD
                (percentileIndex scenarioTimes.length (19/20)) 0
          ∧ (responseStatsAdv scenarioTimes).p99
            = (pySorted scenarioTimes).getD
                (percentileIndex scenarioTimes.length (99/100)) 0)
        ∧ responseStatsComp scenarioTimes = responseStatsAdv scenarioTimes
        ∧ ((quick.quickStats scenarioTimes).p95 = (responseStatsAdv scenarioTimes).p95
          ∧ (quick.quickStats scenarioTimes).p99 = (responseStatsAdv scenarioTimes).p99)))
    ∧ (((responseStatsAdv [(1:ℚ)/2]).p95 = 1/2 ∧ (responseStatsAdv [(1:ℚ)/2]).p99 = 1/2)
      ∧ ((responseStatsComp [(1:ℚ)/2]).p95 = 1/2 ∧ (responseStatsComp [(1:ℚ)/2]).p99 = 1/2)
      ∧ ((quick.quickStats [(1:ℚ)/2]).p95 = 1/2 ∧ (quick.quickStats [(1:ℚ)/2]).p99 = 1/2)) := by
  have h1 : advanced.analyze_endpoint [advSuccess] 30 = some advSingleAnalysis := by
    norm_num [advanced.analyze_endpoint, advanced.completedTimes, advanced.isSuccessB,
      advanced.isErrorB, errTruthy, advSuccess, advanced.make_request, advSingleAnalysis,
      responseStatsAdv, pyMin, pyMax, pyMean, pyMedian, pySorted, percentileIndex,
      List.insertionSort, List.orderedInsert]
  have h2 : comprehensive.analyze_level_endpoint [compSuccess] = some compSingleAnalysis := by
    norm_num [comprehensive.analyze_level_endpoint, comprehensive.completedTimes,
      comprehensive.isSuccessB, comprehensive.isErrorB, errTruthy, compSuccess,
      comprehensive.make_request, compSingleAnalysis, responseStatsComp, pyMin, pyMax,
      pyMean, pyMedian, pySorted, percentileIndex, List.insertionSort, List.orderedInsert]
  have h3 : quick.analyze_results [quickSuccess] = .ok quickSingleAnalysis := by
    norm_num [quick.analyze_results, quick.successTimes, quickSuccess, quick.test_endpoint,
      quickSingleAnalysis, quick.quickStats, pyMin, pyMax, pySorted, percentileIndex,
      List.insertionSort, List.orderedInsert]
  have h4 : 2 ≤ scenarioTimes.length := by norm_num [scenarioTimes]
  exact ⟨⟨h1, C1_latency_filter_and_percentiles.1 [advSuccess] 30 advSingleAnalysis h1⟩,
    ⟨h2, C1_latency_filter_and_percentiles.2.1 [compSuccess] compSingleAnalysis h2⟩,
    ⟨h3, C1_latency_filter_and_percentiles.2.2.1 [quickSuccess] quickSingleAnalysis h3⟩,
    ⟨h4, C1_latency_filter_and_percentiles.2.2.2.1 scenarioTimes h4⟩,
    C1_latency_filter_and_percentiles.2.2.2.2 (1/2)⟩

/-- Claim C2 (amended): for the fixed ten-outcome scenario with elapsed times
0.1, 0.1, 0.2, 0.2, 0.2, 0.3, 0.3, 0.4, 0.5, 1.0 (all status 200), the
reduction yields mean = 0.33 and p99 = 1.0, but p95 = 1.0 as well — the
index `int(10 * 0.95) = 9` selects the largest sample, not 0.5. -/
theorem C2_fixed_scenario_stats :
    (advanced.analyze_endpoint scenarioResults 1).map (fun a =>
      (a.response_times.p95, a.response_times.p99, a.response_times.mean))
      = some (1, 1, 33/100) := by
  norm_num [scenarioResults, scenarioTimes, advanced.analyze_endpoint,
    advanced.completedTimes, responseStatsAdv, pySorted, percentileIndex, pyMean,
    show (9 : Int).toNat = 9 from rfl, List.insertionSort, List.orderedInsert]

/-- Counterexample to C2 as stated: on the fixed scenario the code computes
p95 = 1.0, not the claimed 0.5. -/
theorem C2_counterexample_p95 :
    (advanced.analyze_endpoint scenarioResults 1).map (fun a => a.response_times.p95)
      = some 1
    ∧ (1 : ℚ) ≠ 1/2 := by
  refine ⟨?_, by norm_num⟩
  norm_num [scenarioResults, scenarioTimes, advanced.analyze_endpoint,
    advanced.completedTimes, responseStatsAdv, pySorted, percentileIndex,
    show (9 : Int).toNat = 9 from rfl, List.insertionSort, List.orderedInsert]

/-- Claim C4 (amended): for an endpoint all of whose outcomes have status
code 0, the advanced and comprehensive analyzers omit the endpoint's
statistics entirely (the entry is absent), but the quick analyzer reports
every latency field as the number 0. -/
theorem C4_all_failed_latency_absent :
    (∀ (rs : List advanced.TestResult) (d : ℚ), (∀ r ∈ rs, r.status_code = 0) →
        advanced.analyze_endpoint rs d = none)
    ∧ (∀ rs : List comprehensive.TestResult, (∀ r ∈ rs, r.status_code = 0) →
        comprehensive.analyze_level_endpoint rs = none)
    ∧ (∀ (rs : List quick.Result) (a : quick.QuickAnalysis),
        quick.analyze_results rs = .ok a → (∀ r ∈ rs, r.success = false) →
        a.response_time_stats
          = { average := 0, minimum := 0, maximum := 0, p95 := 0, p99 := 0 }) := by
  refine ⟨?_, ?_, ?_⟩
  · intro rs d h
    have hct : advanced.completedTimes rs = [] := by
      simp only [advanced.completedTimes, List.map_eq_nil_iff, List.filter_eq_nil_iff]
      intro r hr
      simp [h r hr]
    simp [advanced.analyze_endpoint, hct]
  · intro rs h
    have hct : comprehensive.completedTimes rs = [] := by
      simp only [comprehensive.completedTimes, List.map_eq_nil_iff, List.filter_eq_nil_iff]
      intro r hr
      simp [h r hr]
    simp [comprehensive.analyze_level_endpoint, hct]
  · intro rs a ha h
    have hst : quick.successTimes rs = [] := by
      simp only [quick.successTimes, List.map_eq_nil_iff, List.filter_eq_nil_iff]
      intro r hr
      simp [h r hr]
    rw [quick_analyze_eq_ok ha]
    simp [hst, quick.quickStats]

/-- Witness for C4: the three conjuncts applied to concrete all-failed
runs. -/
theorem C4_witness :
    ((∀ r ∈ [advFailure], r.status_code = 0)
      ∧ advanced.analyze_endpoint [advFailure] 30 = none)
    ∧ ((∀ r ∈ [compEmptyMsgFailure], r.status_code = 0)
      ∧ comprehensive.analyze_level_endpoint [compEmptyMsgFailure] = none)
    ∧ (quick.analyze_results [quickFailure] = .ok quickFailedAnalysis
      ∧ (∀ r ∈ [quickFailure], r.success = false)
      ∧ quickFailedAnalysis.response_time_stats
        = { average := 0, minimum := 0, maximum := 0, p95 := 0, p99 := 0 }) := by
  have ha : ∀ r ∈ [advFailure], r.status_code = 0 := by
    intro r hr
    simp only [List.mem_singleton] at hr
    simp [hr, advFailure, advanced.make_request]
  have hc : ∀ r ∈ [compEmptyMsgFailure], r.status_code = 0 := by
    intro r hr
    simp only [List.mem_singleton] at hr
    simp [hr, compEmptyMsgFailure, comprehensive.make_request]
  have hq : ∀ r ∈ [quickFailure], r.success = false := by
    intro r hr
    simp only [List.mem_singleton] at hr
    simp [hr, quickFailure, quick.test_endpoint]
  have hqa : quick.analyze_results [quickFailure] = .ok quickFailedAnalysis := by
    norm_num [quick.analyze_results, quick.successTimes, quickFailure,
      quick.test_endpoint, quickFailedAnalysis, quick.quickStats]
  exact ⟨⟨ha, C4_all_failed_latency_absent.1 [advFailure] 30 ha⟩,
    ⟨hc, C4_all_failed_latency_absent.2.1 [compEmptyMsgFailure] hc⟩,
    ⟨hqa, hq, C4_all_failed_latency_absent.2.2 [quickFailure] quickFailedAnalysis hqa hq⟩⟩

/-- Counterexample to C4 as stated: a run whose only outcome is a transport
failure (status 0) makes the quick analyzer report every latency field as
the number 0 rather than absent/null. -/
theorem C4_counterexample_quick_zero :
    quickFailure.status = 0
    ∧ (quick.analyze_results [quickFailure]).map (fun a => a.response_time_stats)
      = .ok { average := 0, minimum := 0, maximum := 0, p95 := 0, p99 := 0 } := by
  refine ⟨rfl, ?_⟩
  norm_num [quick.analyze_results, quick.successTimes, quickFailure,
    quick.test_endpoint, quick.quickStats, Except.map]

/-- Claim C3: the weighted selector of the advanced and comprehensive
scripts agrees, for every endpoint list and every drawn value, with the
spec's description — the first endpoint in list order whose cumulative
weight sum is at least r, falling back to the first endpoint of the list
whenever r exceeds the final cumulative sum (never an error). -/
theorem C3_weighted_selector_refines_spec :
    ∀ (eps : List EndpointSpec) (r : ℚ),
      select_endpoint eps r = specWeightedSelect eps r
      ∧ ((totalWeight eps : ℚ) < r → select_endpoint eps r = eps.head?) := by
  intro eps r
  have hmain : select_endpoint eps r = specWeightedSelect eps r := by
    rw [select_endpoint, specWeightedSelect, selectLoop_eq_find]
    have hp : (fun i => decide (r ≤ 0 + cumWeight eps i))
        = fun i => decide (r ≤ cumWeight eps i) := by
      funext i
      rw [zero_add]
    rw [hp]
    cases hfind : (List.range eps.length).find? (fun i => decide (r ≤ cumWeight eps i)) with
    | none => rfl
    | some i =>
      have hi : i < eps.length := by
        have := List.find?_some hfind
        have hmem := List.mem_of_find?_eq_some hfind
        exact List.mem_range.mp hmem
      have hep : eps[i]? = some (eps[i]) := List.getElem?_eq_getElem hi
      simp [hep]
  refine ⟨hmain, fun hr => ?_⟩
  rw [hmain, specWeightedSelect]
  have hnone : (List.range eps.length).find? (fun i => decide (r ≤ cumWeight eps i))
      = none := by
    rw [List.find?_eq_none]
    intro i _
    simp only [decide_eq_true_eq, not_le]
    exact lt_of_le_of_lt (cumWeight_le_total eps i) hr
  rw [hnone]

/-- Witness for C3 at the default endpoint configuration: a draw of 35 and
an out-of-range draw of 101 (total weight 100). -/
theorem C3_witness :
    (select_endpoint advanced.defaultEndpoints 35
        = specWeightedSelect advanced.defaultEndpoints 35)
    ∧ (totalWeight advanced.defaultEndpoints : ℚ) < 101
    ∧ select_endpoint advanced.defaultEndpoints 101
        = advanced.defaultEndpoints.head? := by
  have h : (totalWeight advanced.defaultEndpoints : ℚ) < 101 := by
    norm_num [totalWeight, advanced.defaultEndpoints]
  exact ⟨(C3_weighted_selector_refines_spec advanced.defaultEndpoints 35).1, h,
    (C3_weighted_selector_refines_spec advanced.defaultEndpoints 101).2 h⟩

/-- Claim C6 (amended): provided every status-0 outcome carries a truthy
(non-empty) error string, every 2xx-3xx outcome carries none, and statuses
lie in the claim's classified ranges, the reduction satisfies
count = successful + failed and successRate + errorRate = 100 (both rates
being percentages, i.e. the fractions sum to 1).  Without the error-string
proviso the property fails: the code classifies errors by Python truthiness
of the error field (`r.error or r.status_code >= 400`), not by
`status == 0 or status >= 400`. -/
theorem C6_counts_partition :
    (∀ (rs : List comprehensive.TestResult) (a : comprehensive.CEndpointAnalysis),
        (∀ r ∈ rs, OutcomeWF r) →
        comprehensive.analyze_level_endpoint rs = some a →
        a.total_requests = a.successful_requests + a.failed_requests
        ∧ a.success_rate + a.error_rate = 100)
    ∧ (∀ (rs : List advanced.TestResult) (d : ℚ) (a : advanced.EndpointAnalysis),
        (∀ r ∈ rs, OutcomeWFAdv r) →
        advanced.analyze_endpoint rs d = some a →
        a.total_requests = a.successful_requests + a.errors) := by
  constructor
  · intro rs a hwf h
    have hne : rs ≠ [] := by
      intro hnil
      subst hnil
      simp [comprehensive.analyze_level_endpoint, comprehensive.completedTimes] at h
    have hn : 0 < rs.length := List.length_pos.mpr hne
    have hpart := count_partition_comp rs hwf
    rw [comprehensive_analyze_level_eq_some h]
    refine ⟨hpart.symm, ?_⟩
    have hcast : ((rs.filter comprehensive.isSuccessB).length : ℚ)
        + ((rs.filter comprehensive.isErrorB).length : ℚ) = (rs.length : ℚ) := by
      exact_mod_cast hpart
    have hn' : (rs.length : ℚ) ≠ 0 := by
      exact_mod_cast Nat.pos_iff_ne_zero.mp hn
    field_simp
    linarith [hcast]
  · intro rs d a hwf h
    have hpart := count_partition_adv rs hwf
    rw [advanced_analyze_endpoint_eq_some h]
    exact hpart.symm

/-- Witness for C6: the comprehensive conjunct at a success plus an HTTP 503
outcome, and the advanced conjunct at a single success. -/
theorem C6_witness :
    ((∀ r ∈ [compSuccess, compServerError], OutcomeWF r)
      ∧ comprehensive.analyze_level_endpoint [compSuccess, compServerError]
          = some compPairAnalysis
      ∧ compPairAnalysis.total_requests
          = compPairAnalysis.successful_requests + compPairAnalysis.failed_requests
      ∧ compPairAnalysis.success_rate + compPairAnalysis.error_rate = 100)
    ∧ ((∀ r ∈ [advSuccess], OutcomeWFAdv r)
      ∧ advanced.analyze_endpoint [advSuccess] 30 = some advSingleAnalysis
      ∧ advSingleAnalysis.total_requests
          = advSingleAnalysis.successful_requests + advSingleAnalysis.errors) := by
  have hwf : ∀ r ∈ [compSuccess, compServerError], OutcomeWF r := by
    intro r hr
    rcases List.mem_pair.mp hr with h | h <;>
      simp [h, OutcomeWF, compSuccess, compServerError, comprehensive.make_request]
  have hwfa : ∀ r ∈ [advSuccess], OutcomeWFAdv r := by
    intro r hr
    simp only [List.mem_singleton] at hr
    simp [hr, OutcomeWFAdv, advSuccess, advanced.make_request]
  have ha : comprehensive.analyze_level_endpoint [compSuccess, compServerError]
      = some compPairAnalysis := by
    norm_num [comprehensive.analyze_level_endpoint, comprehensive.completedTimes,
      comprehensive.isSuccessB, comprehensive.isErrorB, errTruthy, compSuccess,
      compServerError, comprehensive.make_request, compPairAnalysis, responseStatsComp,
      pyMin, pyMax, pyMean, pyMedian, pySorted, percentileIndex,
      List.insertionSort, List.orderedInsert]
  have hb : advanced.analyze_endpoint [advSuccess] 30 = some advSingleAnalysis := by
    norm_num [advanced.analyze_endpoint, advanced.completedTimes, advanced.isSuccessB,
      advanced.isErrorB, errTruthy, advSuccess, advanced.make_request, advSingleAnalysis,
      responseStatsAdv, pyMin, pyMax, pyMean, pyMedian, pySorted, percentileIndex,
      List.insertionSort, List.orderedInsert]
  exact ⟨⟨hwf, ha, (C6_counts_partition.1 _ _ hwf ha).1, (C6_counts_partition.1 _ _ hwf ha).2⟩,
    ⟨hwfa, hb, C6_counts_partition.2 [advSuccess] 30 advSingleAnalysis hwfa hb⟩⟩

/-- Counterexample to C6 as stated: a status-0 outcome whose exception
rendered to the empty string (falsy in Python) is counted neither as
successful nor as failed, so for this two-outcome run the code reports
total = 2 but successful + failed = 1 + 0, and successRate + errorRate
= 50, not 100. -/
theorem C6_counterexample_unclassified_failure :
    (comprehensive.analyze_level_endpoint [compEmptyMsgFailure, compSuccess]).map
        (fun a => (a.total_requests, a.successful_requests, a.failed_requests,
          a.success_rate, a.error_rate))
      = some (2, 1, 0, 50, 0)
    ∧ 2 ≠ 1 + 0
    ∧ (50 : ℚ) + 0 ≠ 100 := by
  refine ⟨?_, by norm_num, by norm_num⟩
  norm_num [comprehensive.analyze_level_endpoint, comprehensive.completedTimes,
    comprehensive.isSuccessB, comprehensive.isErrorB, errTruthy, compSuccess,
    compEmptyMsgFailure, comprehensive.make_request, responseStatsComp,
    pyMin, pyMax, pyMean, pyMedian, pySorted, percentileIndex,
    List.insertionSort, List.orderedInsert]

/-- Claim C8: in the advanced and comprehensive analyzers, the computed
latency percentiles (p95, p99) are invariant under any permutation of the
outcome list — percentile computation is order-independent. -/
theorem C8_percentiles_perm_invariant :
    (∀ (rs₁ rs₂ : List advanced.TestResult) (d : ℚ), rs₁.Perm rs₂ →
        (advanced.analyze_endpoint rs₁ d).map
          (fun a => (a.response_times.p95, a.response_times.p99))
        = (advanced.analyze_endpoint rs₂ d).map
          (fun a => (a.response_times.p95, a.response_times.p99)))
    ∧ (∀ rs₁ rs₂ : List comprehensive.TestResult, rs₁.Perm rs₂ →
        (comprehensive.analyze_level_endpoint rs₁).map
          (fun a => (a.response_times.p95, a.response_times.p99))
        = (comprehensive.analyze_level_endpoint rs₂).map
          (fun a => (a.response_times.p95, a.response_times.p99))) := by
  constructor
  · intro rs₁ rs₂ d h
    have hct : (advanced.completedTimes rs₁).Perm (advanced.completedTimes rs₂) :=
      (h.filter _).map _
    have hie := isEmpty_eq_of_perm hct
    by_cases he : (advanced.completedTimes rs₂).isEmpty
    · have he₁ : (advanced.completedTimes rs₁).isEmpty = true := by rw [hie, he]
      simp [advanced.analyze_endpoint, he, he₁]
    · have he₁ : ¬(advanced.completedTimes rs₁).isEmpty := by
        rw [hie]
        exact he
      obtain ⟨hp95, hp99⟩ := responseStatsAdv_p95_p99_perm hct
      simp [advanced.analyze_endpoint, he, he₁, hp95, hp99]
  · intro rs₁ rs₂ h
    have hct : (comprehensive.completedTimes rs₁).Perm (comprehensive.completedTimes rs₂) :=
      (h.filter _).map _
    have hie := isEmpty_eq_of_perm hct
    by_cases he : (comprehensive.completedTimes rs₂).isEmpty
    · have he₁ : (comprehensive.completedTimes rs₁).isEmpty = true := by rw [hie, he]
      simp [comprehensive.analyze_level_endpoint, he, he₁]
    · have he₁ : ¬(comprehensive.completedTimes rs₁).isEmpty := by
        rw [hie]
        exact he
      obtain ⟨hp95, hp99⟩ := responseStatsComp_p95_p99_perm hct
      simp [comprehensive.analyze_level_endpoint, he, he₁, hp95, hp99]

/-- Witness for C8: swapping a two-outcome list leaves the percentile pair
unchanged, in both analyzers. -/
theorem C8_witness :
    (([advFailure, advSuccess] : List advanced.TestResult).Perm [advSuccess, advFailure]
      ∧ (advanced.analyze_endpoint [advFailure, advSuccess] 30).map
          (fun a => (a.response_times.p95, a.response_times.p99))
        = (advanced.analyze_endpoint [advSuccess, advFailure] 30).map
          (fun a => (a.response_times.p95, a.response_times.p99)))
    ∧ (([compServerError, compSuccess] : List comprehensive.TestResult).Perm
          [compSuccess, compServerError]
      ∧ (comprehensive.analyze_level_endpoint [compServerError, compSuccess]).map
          (fun a => (a.response_times.p95, a.response_times.p99))
        = (comprehensive.analyze_level_endpoint [compSuccess, compServerError]).map
          (fun a => (a.response_times.p95, a.response_times.p99))) :=
  ⟨⟨List.Perm.swap advSuccess advFailure [],
    C8_percentiles_perm_invariant.1 [advFailure, advSuccess] [advSuccess, advFailure] 30
      (List.Perm.swap advSuccess advFailure [])⟩,
   ⟨List.Perm.swap compSuccess compServerError [],
    C8_percentiles_perm_invariant.2 [compServerError, compSuccess]
      [compSuccess, compServerError]
      (List.Perm.swap compSuccess compServerError [])⟩⟩

end LoadTest
